import Mathlib

/-!
Shallow embedding of the `gemini-line-bot` session controller and search
subsystem (`main.py`, constants from `config.py`), together with proofs about
its conversation-history, quota, authentication and search-job behaviour.

Modelling conventions:
* The Firebase realtime database is modelled by the `DB` structure: the slice
  of the tree for one user (history, mode, today's pro-usage counter) plus the
  global tables (`/valid_codes`, `/authenticated_users`).  `ref.get()`
  returning `None` is modelled by `Option`/the empty list.
* External calls (Gemini `generate_content`, the custom-search API, page
  fetch + extraction) are oracles returning `Option`: `none` models the call
  raising an exception, `some t` a successful result with payload `t`.
* LINE replies and push messages are collected as result fields; sending is
  modelled as reliable (a push never raises).
* The date used by the quota functions is fixed: `DB.proUsage` is the counter
  stored under today's JST date key.
-/

namespace Config

def MAX_HISTORY_LENGTH : Nat := 20

def PRO_MODE_LIMIT : Nat := 5

def CMD_RESET : String := "/reset"

def CMD_PRO : String := "/pro"

def CMD_FLASH : String := "/flash"

def CMD_SEARCH : String := "/search"

end Config

/-- One conversational turn, `{'role': ..., 'parts': [{'text': ...}]}` in
`main.py`.  The `parts` list always holds exactly one text part there, so it
is flattened to a single `text` field. -/
structure Turn where
  role : String
  text : String
deriving DecidableEq, Repr

/-- The database state visible to the handlers: one user's slice of the
Firebase tree plus the global code/auth tables. -/
structure DB where
  history : List Turn
  mode : Option String
  proUsage : Option Nat
  validCodes : List String
  authUsers : List String
deriving DecidableEq, Repr

/-- `get_user_mode`: `ref.get() or 'flash'`. -/
def get_user_mode (db : DB) : String :=
  db.mode.getD "flash"

/-- `set_user_mode`: `ref.set(mode)`. -/
def set_user_mode (db : DB) (mode : String) : DB :=
  { db with mode := some mode }

/-- `get_conversation_history`:
`history[-Config.MAX_HISTORY_LENGTH:] if history else []`.
The Python slice `history[-n:]` is the last `n` elements, i.e.
`List.drop (length - n)`. -/
def get_conversation_history (db : DB) : List Turn :=
  if db.history = [] then []
  else db.history.drop (db.history.length - Config.MAX_HISTORY_LENGTH)

/-- `save_conversation_history`: `ref.set(history)` — persists the list as
given, with no truncation. -/
def save_conversation_history (db : DB) (history : List Turn) : DB :=
  { db with history := history }

/-- `reset_conversation_history`: `ref.delete()`. -/
def reset_conversation_history (db : DB) : DB :=
  { db with history := [] }

/-- `check_pro_quota`: `(ref.get() or 0) < Config.PRO_MODE_LIMIT`, a plain
read of today's counter followed by a comparison. -/
def check_pro_quota (db : DB) : Bool :=
  decide (db.proUsage.getD 0 < Config.PRO_MODE_LIMIT)

/-- `record_pro_usage`: `ref.transaction(lambda c: (c or 0) + 1)` — an atomic
increment of today's counter. -/
def record_pro_usage (db : DB) : DB :=
  { db with proUsage := some (db.proUsage.getD 0 + 1) }

/-- `is_user_authenticated`: `ref.get() is not None`. -/
def is_user_authenticated (db : DB) (user_id : String) : Bool :=
  db.authUsers.contains user_id

/-- `authenticate_user`: reads `/valid_codes`; if the table is non-empty and
contains `code`, marks the user authenticated, deletes the code child and
returns `True`; otherwise returns `False` with no writes. -/
def authenticate_user (db : DB) (user_id code : String) : DB × Bool :=
  if !db.validCodes.isEmpty && db.validCodes.contains code then
    ({ db with
        authUsers := user_id :: db.authUsers,
        validCodes := db.validCodes.filter (fun c => c != code) }, true)
  else
    (db, false)

lemma get_conversation_history_length_le (db : DB) :
    (get_conversation_history db).length ≤ Config.MAX_HISTORY_LENGTH := by
  unfold get_conversation_history
  split
  · simp [Config.MAX_HISTORY_LENGTH]
  · rw [List.length_drop]
    omega

lemma contains_filter_ne (l : List String) (code : String) :
    (l.filter (fun c => c != code)).contains code = false := by
  induction l with
  | nil => rfl
  | cons a l ih =>
    by_cases h : a = code
    · simp [List.filter_cons, h, ih]
    · simp [List.filter_cons, h, List.contains_cons, ih, bne_iff_ne, Ne.symm h]

/-- Claim C6: for every stored history sequence, `get_conversation_history`
(Load) returns at most the last `MAX_HISTORY_LENGTH` turns, and those turns
are exactly the most recent stored turns in their original order (a suffix of
the stored sequence of length `min stored MAX_HISTORY_LENGTH`); since this
holds for every database state, it holds after every sequence of appends. -/
theorem claim_C6_load_bounded_suffix (db : DB) :
    (get_conversation_history db).length ≤ Config.MAX_HISTORY_LENGTH
  ∧ get_conversation_history db <:+ db.history
    ∧ (get_conversation_history db).length
        = min db.history.length Config.MAX_HISTORY_LENGTH := by
  refine ⟨get_conversation_history_length_le db, ?_, ?_⟩
  · unfold get_conversation_history
    split
    · simp [*]
    · exact List.drop_suffix _ _
  · unfold get_conversation_history
    split
    · simp [*]
    · rw [List.length_drop]
      omega

/-- Claim C3: redeeming a code succeeds at most once.  On success the user is
marked authenticated, the code is removed from the valid-code table, and a
second redemption of the same code (by any user) fails; on failure both the
authenticated-users table and the valid-code table are left unchanged and
`false` is returned. -/
theorem claim_C3_redeem_at_most_once (db : DB) (uid uid2 code : String) :
    ((authenticate_user db uid code).2 = true →
        is_user_authenticated (authenticate_user db uid code).1 uid = true
      ∧ (authenticate_user db uid code).1.validCodes.contains code = false
      ∧ (authenticate_user (authenticate_user db uid code).1 uid2 code).2
          = false)
  ∧ ((authenticate_user db uid code).2 = false →
        (authenticate_user db uid code).1.authUsers = db.authUsers
      ∧ (authenticate_user db uid code).1.validCodes = db.validCodes) := by
  by_cases hmem : code ∈ db.validCodes
  · have hne : db.validCodes ≠ [] := List.ne_nil_of_mem hmem
    constructor
    · intro _
      refine ⟨?_, ?_, ?_⟩
      · simp [authenticate_user, is_user_authenticated, hmem, hne]
      · simp [authenticate_user, hmem, hne, contains_filter_ne]
      · simp [authenticate_user, hmem, hne, List.mem_filter]
    · intro hfalse
      simp [authenticate_user, hmem, hne] at hfalse
  · constructor
    · intro htrue
      simp [authenticate_user, hmem] at htrue
    · intro _
      simp [authenticate_user, hmem]

/-- Witness for C3: with valid-code table `["ABC123"]`, redemption by `"u1"`
succeeds, marks `"u1"` authenticated, removes the code, and a second
redemption by `"u2"` fails. -/
theorem claim_C3_redeem_at_most_once_witness :
    (authenticate_user ⟨[], none, none, ["ABC123"], []⟩ "u1" "ABC123").2 = true
  ∧ (is_user_authenticated
        (authenticate_user ⟨[], none, none, ["ABC123"], []⟩ "u1" "ABC123").1
        "u1" = true
    ∧ (authenticate_user ⟨[], none, none, ["ABC123"], []⟩ "u1"
        "ABC123").1.validCodes.contains "ABC123" = false
    ∧ (authenticate_user
        (authenticate_user ⟨[], none, none, ["ABC123"], []⟩ "u1" "ABC123").1
        "u2" "ABC123").2 = false) :=
  ⟨by decide,
   (claim_C3_redeem_at_most_once ⟨[], none, none, ["ABC123"], []⟩
      "u1" "u2" "ABC123").1 (by decide)⟩

/-- The fixed error reply sent by `handle_text_message`'s exception handler. -/
def error_reply : String :=
  "申し訳ありません、エラーが発生しました。「/reset」で会話をリセットしてみてください。"

/-- The out-of-band push sent when the daily pro quota is exhausted
(`limit_message` in `handle_conversation`, with `PRO_MODE_LIMIT`
interpolated). -/
def limit_message : String :=
  "本日の高精度モード(Pro)のご利用回数上限(" ++ toString Config.PRO_MODE_LIMIT
    ++ "回)に達しました。高速モード(Flash)で応答します。"

/-- `f"{mode_icon} {reply_text}"`. -/
def format_reply (mode_icon reply_text : String) : String :=
  mode_icon ++ " " ++ reply_text

/-- Result of `handle_conversation`: the database after the handler, the push
messages it sent, and the reply (`none` models the `generate_content` call —
or reading `response.text` — raising, which propagates to the caller). -/
structure ConvResult where
  db : DB
  pushes : List String
  reply : Option String
deriving Repr

/-- `handle_conversation`.  The two generative models are oracles
`genF`/`genP` (flash/pro) mapping the chat history to `none` (the call
raises) or `some text`.  Steps, as in the source: resolve mode; if `pro`,
either record usage and use the pro model, or push the limit notice and stay
on flash; load (truncated) history; append the user turn; call the selected
model; on success append the model turn, persist, and reply with the icon
prefix. -/
def handle_conversation (genF genP : List Turn → Option String)
    (db : DB) (user_message : String) : ConvResult :=
  let user_mode := get_user_mode db
  let use_pro := user_mode == "pro" && check_pro_quota db
  let db1 := if use_pro then record_pro_usage db else db
  let pushes :=
    if user_mode == "pro" && !check_pro_quota db then [limit_message] else []
  let mode_icon := if use_pro then "🤖" else "⚡️"
  let history := get_conversation_history db1 ++ [⟨"user", user_message⟩]
  match (if use_pro then genP else genF) history with
  | none => ⟨db1, pushes, none⟩
  | some reply_text =>
      ⟨save_conversation_history db1 (history ++ [⟨"model", reply_text⟩]),
       pushes, some (format_reply mode_icon reply_text)⟩

/-- Result of a full `handle_text_message` dispatch: database, the messages
of the single reply, the pushes, and the queued background search jobs
(refined queries passed to `run_search_task.queue`). -/
structure HandlerResult where
  db : DB
  reply : List String
  pushes : List String
  queued : List String
deriving Repr

def welcome_message : String := "認証が完了しました。ご質問をどうぞ。"

def command_list_message : String :=
  "【コマンド一覧】\n" ++ Config.CMD_SEARCH ++ " [キーワード]\n"
    ++ Config.CMD_PRO ++ " - 高精度モード\n"
    ++ Config.CMD_FLASH ++ " - 高速モード\n"
    ++ Config.CMD_RESET ++ " - 履歴リセット"

/-- `handle_authentication`: feed the raw text to `authenticate_user`; on
success reply welcome + command list, otherwise prompt for a code. -/
def handle_authentication (db : DB) (user_id code : String) : HandlerResult :=
  let r := authenticate_user db user_id code
  if r.2 then ⟨r.1, [welcome_message, command_list_message], [], []⟩
  else ⟨r.1, ["認証コードを入力してください。"], [], []⟩

/-- Python `str.strip()`: drop whitespace from both ends (implemented over
the character list so that concrete instances evaluate). -/
def py_strip (s : String) : String :=
  ⟨(((s.data.dropWhile Char.isWhitespace).reverse).dropWhile
      Char.isWhitespace).reverse⟩

/-- `user_message.startswith('/')` — the prefix is a single character, so
this is the first-character test. -/
def starts_with_slash (s : String) : Bool :=
  s.data.head? == some '/'

/-- The query-refinement prompt of `refine_search_query`. -/
def refine_prompt (last_user_message current_query : String) : String :=
  "以下の会話の文脈を踏まえて、ユーザーの新しい発言を、Web検索に適した具体的な検索キーワードに変換してください。\n\n"
    ++ "# 文脈（直前の会話）:\n\"" ++ last_user_message ++ "\"\n\n"
    ++ "# ユーザーの新しい発言:\n\"" ++ current_query ++ "\"\n\n"
    ++ "# 生成する検索キーワード（単一の具体的なフレーズのみを出力）:"

/-- `refine_search_query`.  `genText` is the flash model as a prompt oracle
(`none` models the call raising, handled by the `except` branch).  The
concreteness heuristic is the source's
`len(q) > 15 or ' ' in q or 'とは' in q` (substring containment is encoded
via `splitOn`: the marker occurs iff splitting on it yields more than one
piece).  The context turn is the most recent user turn whose text differs
from the current query. -/
def refine_search_query (genText : String → Option String)
    (db : DB) (current_query : String) : String :=
  if current_query.length > 15 ∨ current_query.contains ' '
      ∨ (current_query.splitOn "とは").length > 1 then
    current_query
  else
    let history := get_conversation_history db
    if history = [] then current_query
    else
      let last_user_message :=
        ((history.reverse.find?
            (fun m => m.role == "user" && m.text != current_query)).map
          Turn.text).getD ""
      if last_user_message = "" then current_query
      else
        match genText (refine_prompt last_user_message current_query) with
        | none => current_query
        | some resp => (py_strip resp).replace "\n" " "

/-- `cmd_search`: reject empty queries with a usage hint; otherwise refine
the query, reply with an acknowledgment naming the refined query, and queue
the background job. -/
def cmd_search (genText : String → Option String)
    (db : DB) (query : String) : HandlerResult :=
  if query = "" then
    ⟨db, ["検索キーワードを入力してください。\n例: /search 今日のニュース"], [], []⟩
  else
    let refined_query := refine_search_query genText db query
    ⟨db,
     ["「" ++ refined_query ++ "」についてWebでの調査を開始します。\n完了したら通知しますね！"],
     [], [refined_query]⟩

/-- `handle_command`: split on the first space into `(command, args)`,
lower-case the command, persist the command message into the history, then
dispatch over the fixed command table, replying "unknown command" for
anything else. -/
def handle_command (genText : String → Option String)
    (db : DB) (user_message : String) : HandlerResult :=
  let parts := user_message.splitOn " "
  let command := (parts.headD user_message).toLower
  let args := py_strip (String.intercalate " " parts.tail)
  let history := get_conversation_history db
  let db1 := save_conversation_history db (history ++ [⟨"user", user_message⟩])
  if command = Config.CMD_RESET then
    ⟨reset_conversation_history db1, ["会話の履歴をリセットしました。"], [], []⟩
  else if command = Config.CMD_PRO then
    ⟨set_user_mode db1 "pro",
     ["🤖 高精度モード (Pro) に切り替えました。\n(上限: "
        ++ toString Config.PRO_MODE_LIMIT ++ "回/日)"], [], []⟩
  else if command = Config.CMD_FLASH then
    ⟨set_user_mode db1 "flash", ["⚡️ 高速モード (Flash) に切り替えました。"], [], []⟩
  else if command = Config.CMD_SEARCH then
    cmd_search genText db1 args
  else
    ⟨db1, ["不明なコマンドです: " ++ command], [], []⟩

/-- `handle_text_message`: strip the text; route unauthenticated users to
authentication, slash-prefixed messages to the command handler, everything
else to the conversation pipeline.  Its `except` clause converts a raised
model call (the only raising operation in the embedding) into the fixed
`error_reply`. -/
def handle_text_message (genF genP : List Turn → Option String)
    (genText : String → Option String)
    (db : DB) (user_id text : String) : HandlerResult :=
  let user_message := py_strip text
  if !is_user_authenticated db user_id then
    handle_authentication db user_id user_message
  else if starts_with_slash user_message then
    handle_command genText db user_message
  else
    let r := handle_conversation genF genP db user_message
    match r.reply with
    | none => ⟨r.db, [error_reply], r.pushes, []⟩
    | some t => ⟨r.db, [t], r.pushes, []⟩

lemma get_conversation_history_record (db : DB) :
    get_conversation_history (record_pro_usage db)
      = get_conversation_history db := rfl

lemma record_pro_usage_history (db : DB) :
    (record_pro_usage db).history = db.history := rfl

/-- Claim C7: a conversational message from a user whose stored mode is
`pro` and whose usage count for today already equals `PRO_MODE_LIMIT` gets
the out-of-band limit push, leaves the stored quota count and the stored
mode unchanged, and is answered by the flash model with the flash icon —
the fallback applies to this turn only. -/
theorem claim_C7_quota_exhausted_fallback
    (genF genP : List Turn → Option String) (db : DB) (msg : String)
    (hmode : db.mode = some "pro")
    (hquota : db.proUsage = some Config.PRO_MODE_LIMIT) :
    (handle_conversation genF genP db msg).pushes = [limit_message]
  ∧ (handle_conversation genF genP db msg).db.proUsage = db.proUsage
  ∧ (handle_conversation genF genP db msg).db.mode = db.mode
  ∧ (handle_conversation genF genP db msg).reply
      = (genF (get_conversation_history db ++ [⟨"user", msg⟩])).map
          (format_reply "⚡️") := by
  have hm : get_user_mode db = "pro" := by simp [get_user_mode, hmode]
  have hq : check_pro_quota db = false := by
    simp [check_pro_quota, hquota]
  cases hg : genF (get_conversation_history db ++ [⟨"user", msg⟩]) with
  | none => simp [handle_conversation, hm, hq, hg]
  | some t => simp [handle_conversation, hm, hq, hg, save_conversation_history]

/-- Witness for C7: flash mode user at the limit: push sent, count and mode
untouched, reply produced by the flash oracle. -/
theorem claim_C7_quota_exhausted_fallback_witness :
    (handle_conversation (fun _ => some "ok") (fun _ => some "PRO")
        ⟨[], some "pro", some Config.PRO_MODE_LIMIT, [], []⟩ "こんにちは").pushes
      = [limit_message]
  ∧ (handle_conversation (fun _ => some "ok") (fun _ => some "PRO")
        ⟨[], some "pro", some Config.PRO_MODE_LIMIT, [], []⟩ "こんにちは").db.proUsage
      = some Config.PRO_MODE_LIMIT
  ∧ (handle_conversation (fun _ => some "ok") (fun _ => some "PRO")
        ⟨[], some "pro", some Config.PRO_MODE_LIMIT, [], []⟩ "こんにちは").db.mode
      = some "pro"
  ∧ (handle_conversation (fun _ => some "ok") (fun _ => some "PRO")
        ⟨[], some "pro", some Config.PRO_MODE_LIMIT, [], []⟩ "こんにちは").reply
      = some (format_reply "⚡️" "ok") :=
  claim_C7_quota_exhausted_fallback (fun _ => some "ok") (fun _ => some "PRO")
    ⟨[], some "pro", some Config.PRO_MODE_LIMIT, [], []⟩ "こんにちは" rfl rfl

/-- Claim C10: a premium turn that passes the quota check increments the
daily counter before the model call, so when the model call fails the
increment persists (no rollback): the final stored count is the initial
count plus one even though no reply is produced. -/
theorem claim_C10_usage_recorded_before_model_call
    (genF genP : List Turn → Option String) (db : DB) (msg : String)
    (hmode : get_user_mode db = "pro")
    (hquota : check_pro_quota db = true)
    (hfail : genP (get_conversation_history db ++ [⟨"user", msg⟩]) = none) :
    (handle_conversation genF genP db msg).db.proUsage
        = some (db.proUsage.getD 0 + 1)
  ∧ (handle_conversation genF genP db msg).reply = none := by
  have h1 : handle_conversation genF genP db msg
      = ⟨record_pro_usage db, [], none⟩ := by
    simp [handle_conversation, hmode, hquota, get_conversation_history_record,
      hfail]
  rw [h1]
  exact ⟨rfl, rfl⟩

/-- Witness for C10: pro user with no usage yet and a failing pro model:
the counter still ends at 1 and the turn produces no reply. -/
theorem claim_C10_usage_recorded_before_model_call_witness :
    (handle_conversation (fun _ => some "ok") (fun _ => none)
        ⟨[], some "pro", none, [], []⟩ "hi").db.proUsage = some 1
  ∧ (handle_conversation (fun _ => some "ok") (fun _ => none)
        ⟨[], some "pro", none, [], []⟩ "hi").reply = none :=
  claim_C10_usage_recorded_before_model_call (fun _ => some "ok")
    (fun _ => none) ⟨[], some "pro", none, [], []⟩ "hi" rfl (by decide) rfl

/-- Claim C4: for a conversational message from an authenticated user, if the
generative-model call raises, `handle_text_message`'s exception handler sends
the fixed error reply advising a history reset and the stored history is
untouched; and in every case the persistence of the turn is all-or-nothing:
the stored history is either unchanged or extended by exactly the user turn
and the model turn. -/
theorem claim_C4_all_or_nothing_turn
    (genF genP : List Turn → Option String)
    (genText : String → Option String) (db : DB) (uid text : String)
    (hauth : is_user_authenticated db uid = true)
    (hslash : starts_with_slash (py_strip text) = false) :
    ((∀ h, genF h = none) → (∀ h, genP h = none) →
        (handle_text_message genF genP genText db uid text).reply
            = [error_reply]
      ∧ (handle_text_message genF genP genText db uid text).db.history
            = db.history)
  ∧ ((handle_text_message genF genP genText db uid text).db.history
        = db.history
    ∨ ∃ t, (handle_text_message genF genP genText db uid text).db.history
        = (get_conversation_history db ++ [⟨"user", py_strip text⟩])
            ++ [⟨"model", t⟩]) := by
  constructor
  · intro hF hP
    by_cases hup : (get_user_mode db == "pro" && check_pro_quota db) = true
    · constructor
      · simp [handle_text_message, hauth, hslash, handle_conversation, hup,
          hF, hP]
      · simp [handle_text_message, hauth, hslash, handle_conversation, hup,
          hF, hP, record_pro_usage_history]
    · rw [Bool.not_eq_true] at hup
      constructor
      · simp [handle_text_message, hauth, hslash, handle_conversation, hup,
          hF, hP]
      · simp [handle_text_message, hauth, hslash, handle_conversation, hup,
          hF, hP]
  · by_cases hup : (get_user_mode db == "pro" && check_pro_quota db) = true
    · cases hg : genP (get_conversation_history db ++ [⟨"user", py_strip text⟩])
        with
      | none =>
        left
        simp [handle_text_message, hauth, hslash, handle_conversation, hup,
          get_conversation_history_record, hg, record_pro_usage_history]
      | some t =>
        right
        refine ⟨t, ?_⟩
        simp [handle_text_message, hauth, hslash, handle_conversation, hup,
          get_conversation_history_record, hg, save_conversation_history]
    · rw [Bool.not_eq_true] at hup
      cases hg : genF (get_conversation_history db ++ [⟨"user", py_strip text⟩])
        with
      | none =>
        left
        simp [handle_text_message, hauth, hslash, handle_conversation, hup,
          hg]
      | some t =>
        right
        refine ⟨t, ?_⟩
        simp [handle_text_message, hauth, hslash, handle_conversation, hup,
          hg, save_conversation_history]

/-- Witness for C4: authenticated user `"u1"`, both model oracles raise: the
reply is the fixed error message and the stored history stays empty. -/
theorem claim_C4_all_or_nothing_turn_witness :
    (handle_text_message (fun _ => none) (fun _ => none) (fun _ => none)
        ⟨[], none, none, [], ["u1"]⟩ "u1" "こんにちは").reply = [error_reply]
  ∧ (handle_text_message (fun _ => none) (fun _ => none) (fun _ => none)
        ⟨[], none, none, [], ["u1"]⟩ "u1" "こんにちは").db.history
      = ([] : List Turn) :=
  (claim_C4_all_or_nothing_turn (fun _ => none) (fun _ => none) (fun _ => none)
      ⟨[], none, none, [], ["u1"]⟩ "u1" "こんにちは" (by decide) (by decide)).1
    (fun _ => rfl) (fun _ => rfl)

/-- Claim C1 (amended): a persist of conversation history writes at most
`MAX_HISTORY_LENGTH + 2` turns from `handle_conversation` (the truncated
load plus the user and model turns) and at most `MAX_HISTORY_LENGTH + 1`
turns from `handle_command` (the truncated load plus the command turn);
truncation to `MAX_HISTORY_LENGTH` happens on load, not before persisting. -/
theorem claim_C1_amended_persist_bound
    (genF genP : List Turn → Option String) (genText : String → Option String)
    (db db2 : DB) (msg msg2 t : String)
    (hsucc : (handle_conversation genF genP db msg).reply = some t) :
    (handle_conversation genF genP db msg).db.history.length
        ≤ Config.MAX_HISTORY_LENGTH + 2
  ∧ (handle_command genText db2 msg2).db.history.length
        ≤ Config.MAX_HISTORY_LENGTH + 1 := by
  constructor
  · have hlen := get_conversation_history_length_le db
    by_cases hup : (get_user_mode db == "pro" && check_pro_quota db) = true
    · cases hg : genP (get_conversation_history db ++ [⟨"user", msg⟩]) with
      | none =>
        exfalso
        simp [handle_conversation, hup, get_conversation_history_record,
          hg] at hsucc
      | some r =>
        simp [handle_conversation, hup, get_conversation_history_record, hg,
          save_conversation_history]
        omega
    · rw [Bool.not_eq_true] at hup
      cases hg : genF (get_conversation_history db ++ [⟨"user", msg⟩]) with
      | none =>
        exfalso
        simp [handle_conversation, hup, hg] at hsucc
      | some r =>
        simp [handle_conversation, hup, hg, save_conversation_history]
        omega
  · have hlen := get_conversation_history_length_le db2
    simp only [handle_command, cmd_search]
    split
    · simp [reset_conversation_history]
    · split
      · simp [set_user_mode, save_conversation_history]
        omega
      · split
        · simp [set_user_mode, save_conversation_history]
          omega
        · split
          · split
            · simp [save_conversation_history]
              omega
            · simp [save_conversation_history]
              omega
          · simp [save_conversation_history]
            omega

/-- Witness for C1 (amended): empty stored history, a flash model answering
`"ok"`: the conversation persist has at most 22 turns, the command persist at
most 21. -/
theorem claim_C1_amended_persist_bound_witness :
    (handle_conversation (fun _ => some "ok") (fun _ => some "ok")
        ⟨[], none, none, [], []⟩ "hi").reply = some (format_reply "⚡️" "ok")
  ∧ ((handle_conversation (fun _ => some "ok") (fun _ => some "ok")
        ⟨[], none, none, [], []⟩ "hi").db.history.length
      ≤ Config.MAX_HISTORY_LENGTH + 2
    ∧ (handle_command (fun _ => some "ok") ⟨[], none, none, [], []⟩
        "/reset").db.history.length ≤ Config.MAX_HISTORY_LENGTH + 1) :=
  ⟨by decide,
   claim_C1_amended_persist_bound (fun _ => some "ok") (fun _ => some "ok")
     (fun _ => some "ok") ⟨[], none, none, [], []⟩ ⟨[], none, none, [], []⟩
     "hi" "/reset" (format_reply "⚡️" "ok") (by decide)⟩

/-- Counterexample to C1 as stated: with a stored history of exactly
`MAX_HISTORY_LENGTH` turns and a succeeding model call, the conversation
handler persists a sequence of 22 turns — more than `MAX_HISTORY_LENGTH`.
`Append` does not truncate before persisting. -/
theorem claim_C1_counterexample :
    (handle_conversation (fun _ => some "ok") (fun _ => some "ok")
        ⟨List.replicate 20 ⟨"user", "x"⟩, none, none, [], []⟩
        "hi").reply = some (format_reply "⚡️" "ok")
  ∧ (handle_conversation (fun _ => some "ok") (fun _ => some "ok")
        ⟨List.replicate 20 ⟨"user", "x"⟩, none, none, [], []⟩
        "hi").db.history.length = 22
  ∧ ¬ ((handle_conversation (fun _ => some "ok") (fun _ => some "ok")
        ⟨List.replicate 20 ⟨"user", "x"⟩, none, none, [], []⟩
        "hi").db.history.length ≤ Config.MAX_HISTORY_LENGTH) := by
  refine ⟨by decide, by decide, by decide⟩

/-- Claim C9: `refine_search_query` returns the raw query unchanged whenever
the query is already concrete under the heuristic (length above 15, contains
a space, or contains the marker `とは`), whenever there is no history,
whenever there is no prior user turn distinct from the current query, and
whenever the model call for refinement fails; it is a total function, so it
never raises to its caller. -/
theorem claim_C9_refine_fallbacks (genText : String → Option String)
    (db : DB) (q : String) :
    (q.length > 15 ∨ q.contains ' ' = true ∨ (q.splitOn "とは").length > 1 →
        refine_search_query genText db q = q)
  ∧ (get_conversation_history db = [] → refine_search_query genText db q = q)
  ∧ ((get_conversation_history db).reverse.find?
        (fun m => m.role == "user" && m.text != q) = none →
        refine_search_query genText db q = q)
  ∧ ((∀ s, genText s = none) → refine_search_query genText db q = q) := by
  refine ⟨?_, ?_, ?_, ?_⟩
  · intro h
    simp only [refine_search_query]
    rw [if_pos h]
  · intro h
    simp only [refine_search_query]
    split
    · rfl
    · simp [h]
  · intro h
    simp only [refine_search_query]
    split
    · rfl
    · split
      · rfl
      · simp [h]
  · intro h
    simp only [refine_search_query]
    split
    · rfl
    · split
      · rfl
      · split
        · rfl
        · simp [h]

/-- Witness for C9: a short context-free query with empty history is
returned unchanged even though the refinement oracle would answer. -/
theorem claim_C9_refine_fallbacks_witness :
    refine_search_query (fun _ => some "REFINED") ⟨[], none, none, [], []⟩
      "天気" = "天気" :=
  (claim_C9_refine_fallbacks (fun _ => some "REFINED")
    ⟨[], none, none, [], []⟩ "天気").2.1 (by decide)

/-- One Google custom-search result as used by `run_search_task`:
`{'title': item.get('title'), 'link': item.get('link')}`.  A missing link
(`None`) is modelled by `""`, which the loop skips exactly like Python's
`if not url: continue`. -/
structure SearchResult where
  title : String
  link : String
deriving DecidableEq, Repr

/-- The per-result block appended to `scraped_contents`:
`f"--- 参照サイト: {url} ---\n\n{text[:7000]}"`. -/
def site_block (url text : String) : String :=
  "--- 参照サイト: " ++ url ++ " ---\n\n" ++ text.take 7000

/-- The scraping loop of `run_search_task` over `search_results[:2]`:
`fetch url = none` models the per-result `try` failing (logged and the
result dropped); on success the block is appended to the evidence and the
url to `referenced_urls`. -/
def scrape_results (fetch : String → Option String) :
    List SearchResult → List String × List String
  | [] => ([], [])
  | result :: rest =>
    if result.link = "" then scrape_results fetch rest
    else
      match fetch result.link with
      | none => scrape_results fetch rest
      | some text =>
        let r := scrape_results fetch rest
        (site_block result.link text :: r.1, result.link :: r.2)

/-- The summarization prompt of `run_search_task`. -/
def summary_prompt (query combined_text : String) : String :=
  "あなたは優秀な調査アシスタントです。以下のWebサイトの情報とユーザーの質問を元に、回答を生成してください。\n\n"
    ++ "■ ユーザーの質問:\n" ++ query ++ "\n\n"
    ++ "■ 参照したWebサイトの情報:\n" ++ combined_text ++ "\n\n"
    ++ "■ 回答のルール:\n"
    ++ "- ユーザーの質問に対する直接的な答えを、まず最初に明確に記述してください。\n"
    ++ "- その後、背景や詳細、重要なポイントを箇条書きなども活用して分かりやすく説明してください。\n"
    ++ "- 日本語で、自然で丁寧な文章で回答してください。"

/-- The terminal failure push of `run_search_task`'s `except` handler. -/
def task_error_message (query : String) : String :=
  "調査中にエラーが発生しました。\n質問: " ++ query
    ++ "\nしばらくしてからもう一度お試しください。"

/-- The "nothing found" push. -/
def not_found_message (query : String) : String :=
  "「" ++ query ++ "」に関する情報が見つかりませんでした。"

/-- The "could not read any pages" push. -/
def cant_read_message (query : String) : String :=
  "「" ++ query ++ "」について、Webサイトから情報を読み取れませんでした。"

/-- The success push, with the cited source list appended when
`referenced_urls` is non-empty. -/
def search_reply (query text : String) (referenced_urls : List String) :
    String :=
  let base := "🌐 Web調査が完了しました。\n\n【質問】\n" ++ query
    ++ "\n\n【回答】\n" ++ text
  if referenced_urls.isEmpty then base
  else base ++ "\n\n【参考にしたサイト】\n"
    ++ String.intercalate "\n" (referenced_urls.map (fun url => "・" ++ url))

/-- `run_search_task`: the background job.  `search` models the custom-search
call (`none` = the API raising, `some items` = the result list), `fetch`
models per-page download + extraction, `summarize` the flash model on the
summarization prompt.  The returned list is the sequence of push messages
sent to the user; the trailing `except` handler corresponds to the `none`
branches of `search` and `summarize`. -/
def run_search_task (search : String → Option (List SearchResult))
    (fetch : String → Option String) (summarize : String → Option String)
    (query : String) : List String :=
  match search query with
  | none => [task_error_message query]
  | some search_results =>
    if search_results.isEmpty then [not_found_message query]
    else
      let scraped := scrape_results fetch (search_results.take 2)
      if scraped.1.isEmpty then [cant_read_message query]
      else
        let combined_text := String.intercalate "\n\n" scraped.1
        match summarize (summary_prompt query combined_text) with
        | none => [task_error_message query]
        | some text => [search_reply query text scraped.2]

/-- Claim C5: every execution of the background search job pushes exactly one
terminal message to the user — a summarized result, a "nothing found" notice,
a "could not read any pages" notice, or the failure notice from the
job-boundary exception handler — never zero and never more than one. -/
theorem claim_C5_exactly_one_terminal_push
    (search : String → Option (List SearchResult))
    (fetch : String → Option String) (summarize : String → Option String)
    (query : String) :
    (run_search_task search fetch summarize query).length = 1 := by
  unfold run_search_task
  cases search query with
  | none => rfl
  | some search_results =>
    simp only
    split
    · rfl
    · split
      · rfl
      · cases summarize (summary_prompt query
          (String.intercalate "\n\n"
            (scrape_results fetch (search_results.take 2)).1)) with
        | none => rfl
        | some text => rfl

/-- Claim C8: page text is fetched independently for the top-2 search
results; a per-result fetch/extraction failure drops only that result: with
two results where the first page fails and the second succeeds, the job
proceeds to summarize from the remaining evidence and the single terminal
push is the summarized result citing exactly the successful URL — the failed
URL is absent from the cited source list. -/
theorem claim_C8_failed_page_dropped
    (search : String → Option (List SearchResult))
    (fetch : String → Option String) (summarize : String → Option String)
    (q t s : String) (r1 r2 : SearchResult)
    (hs : search q = some [r1, r2])
    (h1l : r1.link ≠ "") (h1 : fetch r1.link = none)
    (h2l : r2.link ≠ "") (h2 : fetch r2.link = some t)
    (hsum : ∀ p, summarize p = some s)
    (hne : r1.link ≠ r2.link) :
    run_search_task search fetch summarize q
        = [search_reply q s [r2.link]]
  ∧ r1.link ∉ [r2.link] := by
  have hscrape : scrape_results fetch [r1, r2]
      = ([site_block r2.link t], [r2.link]) := by
    simp [scrape_results, h1l, h1, h2l, h2]
  constructor
  · simp [run_search_task, hs, List.take, hscrape, hsum]
  · simp [hne]

/-- Witness for C8: two concrete results; the first page fetch fails, the
second succeeds, and the push is the summary citing only the second URL. -/
theorem claim_C8_failed_page_dropped_witness :
    run_search_task (fun _ => some [⟨"A", "http-a"⟩, ⟨"B", "http-b"⟩])
        (fun u => if u = "http-b" then some "本文" else none)
        (fun _ => some "要約") "質問"
      = [search_reply "質問" "要約" ["http-b"]]
  ∧ "http-a" ∉ ["http-b"] :=
  claim_C8_failed_page_dropped
    (fun _ => some [⟨"A", "http-a"⟩, ⟨"B", "http-b"⟩])
    (fun u => if u = "http-b" then some "本文" else none)
    (fun _ => some "要約") "質問" "本文" "要約" ⟨"A", "http-a"⟩ ⟨"B", "http-b"⟩
    rfl (by decide) (by decide) (by decide) (by decide) (fun _ => rfl)
    (by decide)

/-- One sequential quota attempt as performed by `handle_conversation`:
`check_pro_quota` followed, on `true`, by `record_pro_usage`.  Returns the
database after the attempt and whether the attempt succeeded (the pro model
is used). -/
def try_consume (db : DB) : DB × Bool :=
  if check_pro_quota db then (record_pro_usage db, true) else (db, false)

/-- `n` sequential quota attempts; returns the final database and the number
of successes. -/
def run_attempts (db : DB) : Nat → DB × Nat
  | 0 => (db, 0)
  | n + 1 =>
    let r := try_consume db
    let rest := run_attempts r.1 n
    (rest.1, (if r.2 then 1 else 0) + rest.2)

/-- Two concurrent check-then-record attempts interleaved so that both
`check_pro_quota` reads happen before either `record_pro_usage` transaction:
each check reads the same initial counter; each recorded increment is itself
atomic (the Firebase transaction), but the check is outside it. -/
def concurrent_pair (db : DB) : DB × Bool × Bool :=
  let passA := check_pro_quota db
  let passB := check_pro_quota db
  let db1 := if passA then record_pro_usage db else db
  let db2 := if passB then record_pro_usage db1 else db1
  (db2, passA, passB)

/-- Claim C2, evaluated at the failing interleaving.  Sequentially the code
matches the claim: from a fresh counter, six attempts give exactly
`PRO_MODE_LIMIT = 5` successes and leave the counter at 5 (the sixth attempt
fails and does not increment).  But after `PRO_MODE_LIMIT - 1 = 4` sequential
successes, two attempts whose `check_pro_quota` reads both precede either
`record_pro_usage` both succeed — 6 total successes and a final counter of 6,
exceeding the limit: the check-and-record pair is not atomic. -/
theorem claim_C2_quota_race_evaluation :
    (run_attempts ⟨[], none, none, [], []⟩ 6).2 = Config.PRO_MODE_LIMIT
  ∧ (run_attempts ⟨[], none, none, [], []⟩ 6).1.proUsage
      = some Config.PRO_MODE_LIMIT
  ∧ (run_attempts ⟨[], none, none, [], []⟩ 4).2 = 4
  ∧ (run_attempts ⟨[], none, none, [], []⟩ 4).1.proUsage = some 4
  ∧ (concurrent_pair (run_attempts ⟨[], none, none, [], []⟩ 4).1).2.1 = true
  ∧ (concurrent_pair (run_attempts ⟨[], none, none, [], []⟩ 4).1).2.2 = true
  ∧ (concurrent_pair (run_attempts ⟨[], none, none, [], []⟩ 4).1).1.proUsage
      = some (Config.PRO_MODE_LIMIT + 1) := by
  decide
